import Mathlib

/-!
Shallow embedding of the Isha health-risk scoring engine (`api/index.py`).

The engine computes per-disease risk assessments from a stored user profile
and a simulated environmental snapshot keyed by district.  Python dicts with
optional keys become structures with `Option` fields; Python numbers become
`Int`, except accumulated scores which become `ℚ` (the dengue vector-index
contribution divides an integer by 4; on the int inputs the program feeds it,
IEEE double arithmetic is exact on these dyadic values, so `ℚ` models the
float result faithfully).  Exceptions become `Except String`.
The wall-clock `datetime.now()` is passed explicitly as a `Date` argument.
String scanning is done on `String.data` so every definition evaluates by
kernel reduction.
-/

attribute [local semireducible] Rat.add Rat.mul Rat.inv Rat.sub

instance {ε α : Type} [DecidableEq ε] [DecidableEq α] :
    DecidableEq (Except ε α) := fun
  | .error e, .error f => decidable_of_iff (e = f) (by simp)
  | .error _, .ok _ => isFalse (by simp)
  | .ok _, .error _ => isFalse (by simp)
  | .ok a, .ok b => decidable_of_iff (a = b) (by simp)

/-- A calendar date; stands in for Python `datetime` where only the
calendar fields are consulted. -/
structure Date where
  year : Int
  month : Int
  day : Int
deriving DecidableEq, Repr

/-- Numeric value of a list of decimal digits. -/
def digitsToNat (l : List Char) : Nat :=
  l.foldl (fun n c => n * 10 + (c.toNat - 48)) 0

/-- Whether the character list is nonempty and all decimal digits. -/
def isDigitRun (l : List Char) : Bool :=
  !l.isEmpty && l.all Char.isDigit

/-- Split a character list at every dash, keeping empty pieces — the
behaviour of `String.splitOn "-"` on the string's characters. -/
def splitDash : List Char → List (List Char)
  | [] => [[]]
  | c :: cs =>
    if c = '-' then [] :: splitDash cs
    else
      match splitDash cs with
      | [] => [[c]]
      | h :: t => (c :: h) :: t

/-- Gregorian leap-year rule, as used by Python `datetime` validation. -/
def isLeapYear (y : Int) : Bool :=
  y % 4 == 0 && (y % 100 != 0 || y % 400 == 0)

/-- Number of days in a month, as validated by the Python `datetime`
constructor. -/
def daysInMonth (y : Int) (m : Nat) : Nat :=
  if m = 2 then (if isLeapYear y then 29 else 28)
  else if m = 4 ∨ m = 6 ∨ m = 9 ∨ m = 11 then 30
  else 31

/-- Model of `datetime.strptime(s, "%Y-%m-%d")`: a 4-digit year, then a
1–2 digit month in 1..12, then a 1–2 digit day valid for that month,
separated by literal dashes, with no leftover input.  Returns `none`
exactly when `strptime`/`datetime` raises `ValueError`. -/
def parseDate (s : String) : Option Date :=
  match splitDash s.data with
  | [ys, ms, ds] =>
    if ys.length = 4 ∧ isDigitRun ys ∧
       isDigitRun ms ∧ ms.length ≤ 2 ∧
       isDigitRun ds ∧ ds.length ≤ 2 then
      let y : Int := (digitsToNat ys : Int)
      let m : Nat := digitsToNat ms
      let d : Nat := digitsToNat ds
      if 1 ≤ y ∧ 1 ≤ m ∧ m ≤ 12 ∧ 1 ≤ d ∧ d ≤ daysInMonth y m then
        some ⟨y, (m : Int), (d : Int)⟩
      else none
    else none
  | _ => none

/-- Model of `get_age(dob_str)`.  A falsy (absent or empty) dob returns the default
30.  Otherwise the code runs `datetime.now().year -
datetime.strptime(dob_str, "%Y-%m-%d").year`; a parse failure raises
`ValueError`, modelled as `Except.error`.  `now` is the wall-clock date. -/
def get_age (dob_str : Option String) (now : Date) : Except String Int :=
  match dob_str with
  | none => Except.ok 30
  | some s =>
    if s = "" then Except.ok 30
    else
      match parseDate s with
      | none => Except.error ("time data " ++ s ++ " does not match format %Y-%m-%d")
      | some d => Except.ok (now.year - d.year)

/-- Model of `get_age_group(age)`: bracket the age with inclusive upper bounds at
5, 15, 40, 60. -/
def get_age_group (age : Int) : String :=
  if age ≤ 5 then "0-5"
  else if age ≤ 15 then "6-15"
  else if age ≤ 40 then "16-40"
  else if age ≤ 60 then "41-60"
  else ">60"

/-- The environmental snapshot record built by
`get_dynamic_environmental_data`. -/
structure EnvData where
  timestamp : String
  season : String
  weeks_since_monsoon_peak : Int
  days_since_last_rain : Int
  hour_of_day : Int
  aqi : Int
  temperature_c : Int
  local_vector_index : Int
  local_outbreak_alert : String
deriving DecidableEq, Repr

/-- The base snapshot dict: fixed constants for the simulated moment
`datetime(2025, 9, 13, 17, 18)` (so `timestamp` is its isoformat and
`hour_of_day` is 17). -/
def base_env_data : EnvData :=
  { timestamp := "2025-09-13T17:18:00"
    season := "Post-Monsoon"
    weeks_since_monsoon_peak := 4
    days_since_last_rain := 4
    hour_of_day := 17
    aqi := 110
    temperature_c := 29
    local_vector_index := 28
    local_outbreak_alert := "Dengue" }

/-- Model of `get_dynamic_environmental_data(district)`: the base dict, then the
high-pollution AQI override, then the Gorakhpur outbreak-alert override. -/
def get_dynamic_environmental_data (district : String) : EnvData :=
  let data := base_env_data
  let data := if district ∈ ["Ghaziabad", "Noida", "Kanpur Nagar"]
              then { data with aqi := 150 } else data
  if district = "Gorakhpur"
  then { data with local_outbreak_alert := "AES" } else data

/-- The `core` section of a profile dict; absent keys are `none`. -/
structure Core where
  name : Option String
  dob : Option String
  district : Option String
deriving DecidableEq, Repr

/-- The `lifestyle` section of a profile dict. -/
structure Lifestyle where
  conditions : List String
  occupation : Option String
deriving DecidableEq, Repr

/-- A user profile.  An absent section behaves as a section with every
key absent, matching `profile.get('core', {})`. -/
structure Profile where
  core : Core
  lifestyle : Lifestyle
deriving DecidableEq, Repr

/-- One entry of a calculator's score-card:
`{"param": ..., "value": ..., "score": ...}`. -/
structure ScoreItem where
  param : String
  value : String
  score : ℚ
deriving DecidableEq, Repr

/-- The result dict of one disease calculator. -/
structure RiskResult where
  disease : String
  score : ℚ
  level : String
  details : List ScoreItem
deriving DecidableEq, Repr

/-- The urban-district list used by the dengue location factor. -/
def urban_districts : List String :=
  ["Lucknow", "Kanpur Nagar", "Ghaziabad", "Gautam Buddh Nagar",
   "Varanasi", "Prayagraj", "Meerut", "Agra"]

/-- The dengue age-group weight table `{"6-15": 3, "16-40": 2, ">60": 4}`
with `.get(age_group, 1)`. -/
def dengue_age_weight (age_group : String) : ℚ :=
  if age_group = "6-15" then 3 else if age_group = "16-40" then 2
  else if age_group = ">60" then 4 else 1

/-- The dengue age-group score table `{"6-15": 7, "16-40": 5, ">60": 6}`
with `.get(age_group, 3)`. -/
def dengue_age_score (age_group : String) : ℚ :=
  if age_group = "6-15" then 7 else if age_group = "16-40" then 5
  else if age_group = ">60" then 6 else 3

/-- The dengue score-card as a function of the profile, the snapshot and
the already-computed age: the six unconditional factors in program order,
then the conditional Diabetes co-morbidity entry. -/
def dengue_score_card (profile : Profile) (env_data : EnvData) (age : Int) :
    List ScoreItem :=
  let age_group := get_age_group age
  let is_urban : Bool := match profile.core.district with
    | some d => d ∈ urban_districts
    | none => false
  let hour := env_data.hour_of_day
  [ ⟨"Age Group", age_group, dengue_age_weight age_group * dengue_age_score age_group⟩,
    ⟨"Location", if is_urban then "Urban" else "Rural",
      5 * (if is_urban then 8 else 4)⟩,
    ⟨"Weeks Since Monsoon Peak", toString env_data.weeks_since_monsoon_peak,
      5 * ((min 10 (env_data.weeks_since_monsoon_peak * 2) : Int) : ℚ)⟩,
    ⟨"Days Since Rain", toString env_data.days_since_last_rain,
      5 * ((min 10 (env_data.days_since_last_rain * 2) : Int) : ℚ)⟩,
    ⟨"Time of Day", toString hour ++ ":00",
      3 * (if (5 ≤ hour ∧ hour ≤ 9) ∨ (16 ≤ hour ∧ hour ≤ 19) then 8 else 3)⟩,
    ⟨"Vector Index", toString env_data.local_vector_index ++ "%",
      5 * ((env_data.local_vector_index : ℚ) / 4)⟩ ] ++
  (if "Diabetes" ∈ profile.lifestyle.conditions
   then [⟨"Co-morbidity", "Diabetes", 40⟩] else [])

/-- Model of `calculate_dengue_risk(profile, env_data)`: build the score-card, sum
it, threshold the total into a level.  Propagates the `get_age` exception. -/
def calculate_dengue_risk (profile : Profile) (env_data : EnvData) (now : Date) :
    Except String RiskResult :=
  match get_age profile.core.dob now with
  | .error e => .error e
  | .ok age =>
    let score_card := dengue_score_card profile env_data age
    let total_score := (score_card.map ScoreItem.score).sum
    let level := if total_score > 300 then "VERY HIGH"
                 else if total_score > 200 then "HIGH"
                 else if total_score > 100 then "MODERATE"
                 else "LOW"
    .ok ⟨"Dengue Fever", total_score, level, score_card⟩

/-- The occupations carrying the respiratory occupation penalty. -/
def high_risk_jobs : List String :=
  ["Construction Worker", "Factory Worker", "Miner"]

/-- The respiratory AQI sub-score: the threshold chain on the snapshot's
AQI value. -/
def respiratory_aqi_score (aqi : Int) : ℚ :=
  if aqi > 300 then 10 else if aqi > 200 then 8
  else if aqi > 100 then 6 else 3

/-- The respiratory age-group weight table `{">60": 5, "0-5": 4}` with
`.get(age_group, 2)`. -/
def respiratory_age_weight (age_group : String) : ℚ :=
  if age_group = ">60" then 5 else if age_group = "0-5" then 4 else 2

/-- The respiratory age-group score table `{">60": 9, "0-5": 8}` with
`.get(age_group, 4)`. -/
def respiratory_age_score (age_group : String) : ℚ :=
  if age_group = ">60" then 9 else if age_group = "0-5" then 8 else 4

/-- The respiratory score-card: AQI and age factors in program order, then
the conditional Asthma/COPD and occupation entries. -/
def respiratory_score_card (profile : Profile) (env_data : EnvData) (age : Int) :
    List ScoreItem :=
  let age_group := get_age_group age
  let aqi := env_data.aqi
  [ ⟨"AQI", toString aqi, 5 * respiratory_aqi_score aqi⟩,
    ⟨"Age Group", age_group,
      respiratory_age_weight age_group * respiratory_age_score age_group⟩ ] ++
  (if "Asthma/COPD" ∈ profile.lifestyle.conditions
   then [⟨"Co-morbidity", "Asthma/COPD", 80⟩] else []) ++
  (match profile.lifestyle.occupation with
   | some occ => if occ ∈ high_risk_jobs then [⟨"Occupation", occ, 30⟩] else []
   | none => [])

/-- Model of `calculate_respiratory_risk(profile, env_data)`. -/
def calculate_respiratory_risk (profile : Profile) (env_data : EnvData) (now : Date) :
    Except String RiskResult :=
  match get_age profile.core.dob now with
  | .error e => .error e
  | .ok age =>
    let score_card := respiratory_score_card profile env_data age
    let total_score := (score_card.map ScoreItem.score).sum
    let level := if total_score > 250 then "VERY HIGH"
                 else if total_score > 150 then "HIGH"
                 else if total_score > 75 then "MODERATE"
                 else "LOW"
    .ok ⟨"Respiratory Illness", total_score, level, score_card⟩

/-- The body of a successful `/api/predict` response. -/
structure AnalysisResult where
  environmental_conditions : EnvData
  risk_assessments : List RiskResult
deriving DecidableEq, Repr

/-- Model of `analyze_risk(profile)`: snapshot for the profile's district
(default "Lucknow"), then both calculators. -/
def analyze_risk (profile : Profile) (now : Date) : Except String AnalysisResult :=
  let district := profile.core.district.getD "Lucknow"
  let env_data := get_dynamic_environmental_data district
  match calculate_dengue_risk profile env_data now with
  | .error e => .error e
  | .ok dengue_analysis =>
    match calculate_respiratory_risk profile env_data now with
    | .error e => .error e
    | .ok respiratory_analysis =>
      .ok ⟨env_data, [dengue_analysis, respiratory_analysis]⟩

/-- The profile store as seen by the predict handler: a lookup from
document key to profile, abstracting `db.collection('userProfiles')`. -/
def Client := String → Option Profile

/-- The document key for a user name: `name.replace(" ", "_").lower()`,
applied character by character (underscores are unaffected by lowering,
so replacing first and lowering first agree). -/
def normalize_user_key (name : String) : String :=
  String.mk (name.data.map (fun c => if c = ' ' then '_' else c.toLower))

/-- An HTTP response of the predict endpoint: a 200 with the analysis
body, or a failure status with an error message. -/
inductive PredictResponse where
  | success (body : AnalysisResult)
  | failure (status : Nat) (message : String)
deriving DecidableEq, Repr

/-- The HTTP status code of a response. -/
def PredictResponse.status : PredictResponse → Nat
  | .success _ => 200
  | .failure s _ => s

/-- Model of `get_prediction()`, the `/api/predict` handler.  `uname` is the
request body's `name` field (`none` when absent); `client` is the result
of `firestore.client()`, `Except.error` when the store is misconfigured
and acquiring the client raises.  Any exception inside the `try` block is
answered with status 500 and the exception's message. -/
def get_prediction (uname : Option String) (client : Except String Client)
    (now : Date) : PredictResponse :=
  match uname with
  | none => .failure 400 "User name is required."
  | some name =>
    if name = "" then .failure 400 "User name is required."
    else
      match client with
      | .error e => .failure 500 e
      | .ok db =>
        match db (normalize_user_key name) with
        | none => .failure 404 "Profile not found."
        | some profile =>
          match analyze_risk profile now with
          | .error e => .failure 500 e
          | .ok predictions => .success predictions

/-! ## Shared helper lemmas -/

/-- The function `get_age` consults only the year of the wall-clock date. -/
theorem get_age_eq_of_year (dob : Option String) (t₀ t₁ : Date)
    (h : t₀.year = t₁.year) : get_age dob t₀ = get_age dob t₁ := by
  cases dob with
  | none => rfl
  | some s =>
    unfold get_age
    rw [h]

/-- A successful dengue result is the record built from the score-card. -/
theorem dengue_ok_elim (p : Profile) (e : EnvData) (now : Date) (age : Int)
    (hage : get_age p.core.dob now = Except.ok age) (r : RiskResult)
    (h : calculate_dengue_risk p e now = Except.ok r) :
    r.score = ((dengue_score_card p e age).map ScoreItem.score).sum ∧
    r.details = dengue_score_card p e age := by
  unfold calculate_dengue_risk at h
  rw [hage] at h
  simp only [Except.ok.injEq] at h
  subst h
  exact ⟨rfl, rfl⟩

/-- A successful respiratory result is the record built from the
score-card. -/
theorem respiratory_ok_elim (p : Profile) (e : EnvData) (now : Date) (age : Int)
    (hage : get_age p.core.dob now = Except.ok age) (r : RiskResult)
    (h : calculate_respiratory_risk p e now = Except.ok r) :
    r.score = ((respiratory_score_card p e age).map ScoreItem.score).sum ∧
    r.details = respiratory_score_card p e age := by
  unfold calculate_respiratory_risk at h
  rw [hage] at h
  simp only [Except.ok.injEq] at h
  subst h
  exact ⟨rfl, rfl⟩

/-- Only the AQI and outbreak-alert fields ever differ from the base
snapshot. -/
theorem env_data_stable_fields (district : String) :
    (get_dynamic_environmental_data district).weeks_since_monsoon_peak = 4 ∧
    (get_dynamic_environmental_data district).days_since_last_rain = 4 ∧
    (get_dynamic_environmental_data district).hour_of_day = 17 ∧
    (get_dynamic_environmental_data district).local_vector_index = 28 ∧
    (get_dynamic_environmental_data district).timestamp = "2025-09-13T17:18:00" := by
  unfold get_dynamic_environmental_data
  split <;> split <;> exact ⟨rfl, rfl, rfl, rfl, rfl⟩

/-! ## Claim theorems -/

/-- C2 counterexample: the non-empty unparseable dob `"abc"` makes
`get_age` raise a `ValueError` (`Except.error`) instead of returning 30,
refuting "returns exactly 30 and does not raise" for unparseable input. -/
theorem c2_counterexample :
    get_age (some "abc") ⟨2025, 9, 13⟩ ≠ Except.ok 30 ∧
    get_age (some "abc") ⟨2025, 9, 13⟩ =
      Except.error "time data abc does not match format %Y-%m-%d" := by
  exact ⟨by decide, rfl⟩

/-- C2 (amended): an absent or empty dob makes `get_age` return the
default 30 without raising; a non-empty dob that does not parse as
`YYYY-MM-DD` raises a `ValueError`, which propagates to the caller. -/
theorem c2_get_age_default (now : Date) :
    get_age none now = Except.ok 30 ∧
    get_age (some "") now = Except.ok 30 ∧
    (∀ s : String, s ≠ "" → parseDate s = none →
      get_age (some s) now =
        Except.error ("time data " ++ s ++ " does not match format %Y-%m-%d")) := by
  refine ⟨rfl, rfl, fun s hs hp => ?_⟩
  simp [get_age, hs, hp]

/-- C2 witness: the amended claim at concrete inputs. -/
theorem c2_get_age_default_witness :
    get_age none ⟨2025, 9, 13⟩ = Except.ok 30 ∧
    get_age (some "xyz") ⟨2025, 9, 13⟩ =
      Except.error "time data xyz does not match format %Y-%m-%d" :=
  ⟨(c2_get_age_default ⟨2025, 9, 13⟩).1,
   (c2_get_age_default ⟨2025, 9, 13⟩).2.2 "xyz" (by decide) (by decide)⟩

/-- C3: `get_age_group` brackets every integer age with inclusive upper
bounds at 5, 15, 40 and 60. -/
theorem c3_age_group_brackets (a : Int) :
    (a ≤ 5 → get_age_group a = "0-5") ∧
    (6 ≤ a ∧ a ≤ 15 → get_age_group a = "6-15") ∧
    (16 ≤ a ∧ a ≤ 40 → get_age_group a = "16-40") ∧
    (41 ≤ a ∧ a ≤ 60 → get_age_group a = "41-60") ∧
    (61 ≤ a → get_age_group a = ">60") := by
  unfold get_age_group
  refine ⟨fun h => ?_, fun h => ?_, fun h => ?_, fun h => ?_, fun h => ?_⟩ <;>
    split_ifs <;> first | rfl | omega

/-- C3 witness: the eight boundary ages listed by the claim. -/
theorem c3_age_group_brackets_witness :
    get_age_group 5 = "0-5" ∧ get_age_group 6 = "6-15" ∧
    get_age_group 15 = "6-15" ∧ get_age_group 16 = "16-40" ∧
    get_age_group 40 = "16-40" ∧ get_age_group 41 = "41-60" ∧
    get_age_group 60 = "41-60" ∧ get_age_group 61 = ">60" :=
  ⟨(c3_age_group_brackets 5).1 (by decide),
   (c3_age_group_brackets 6).2.1 (by decide),
   (c3_age_group_brackets 15).2.1 (by decide),
   (c3_age_group_brackets 16).2.2.1 (by decide),
   (c3_age_group_brackets 40).2.2.1 (by decide),
   (c3_age_group_brackets 41).2.2.2.1 (by decide),
   (c3_age_group_brackets 60).2.2.2.1 (by decide),
   (c3_age_group_brackets 61).2.2.2.2 (by decide)⟩

/-- C4: the snapshot applies the district overrides deterministically
after base assignment and never errors on an unrecognized district:
Ghaziabad gets AQI 150, Gorakhpur gets the AES alert, and any district
outside both override sets keeps every base value (in particular
Lucknow's AQI stays 110). -/
theorem c4_env_overrides :
    (get_dynamic_environmental_data "Ghaziabad").aqi = 150 ∧
    (get_dynamic_environmental_data "Gorakhpur").local_outbreak_alert = "AES" ∧
    (get_dynamic_environmental_data "Lucknow").aqi = 110 ∧
    ∀ district : String, district ∉ ["Ghaziabad", "Noida", "Kanpur Nagar"] →
      district ≠ "Gorakhpur" →
      get_dynamic_environmental_data district = base_env_data := by
  refine ⟨rfl, rfl, rfl, fun d h1 h2 => ?_⟩
  simp [get_dynamic_environmental_data, h1, h2]

/-- C4 witness: the unrecognized district "Ballia" keeps the base
snapshot unmodified. -/
theorem c4_env_overrides_witness :
    get_dynamic_environmental_data "Ballia" = base_env_data :=
  c4_env_overrides.2.2.2 "Ballia" (by decide) (by decide)

/-- The profile of claim C1: born 1990-01-01, district Ghaziabad,
Asthma/COPD. -/
def c1_profile : Profile :=
  ⟨⟨none, some "1990-01-01", some "Ghaziabad"⟩, ⟨["Asthma/COPD"], none⟩⟩

/-- A profile with only a date of birth, for the reproducibility claim. -/
def c9_profile : Profile :=
  ⟨⟨none, some "1990-01-01", none⟩, ⟨[], none⟩⟩

/-- A profile with every field absent. -/
def empty_profile : Profile := ⟨⟨none, none, none⟩, ⟨[], none⟩⟩

/-- The dengue result for the empty profile against the Lucknow snapshot
(executed with the wall clock in 2025): age defaults to 30, so the card is
10 + 20 + 40 + 40 + 24 + 35 = 169. -/
def dengue_example_result : RiskResult :=
  ⟨"Dengue Fever", 169, "MODERATE",
   [⟨"Age Group", "16-40", 10⟩, ⟨"Location", "Rural", 20⟩,
    ⟨"Weeks Since Monsoon Peak", "4", 40⟩, ⟨"Days Since Rain", "4", 40⟩,
    ⟨"Time of Day", "17:00", 24⟩, ⟨"Vector Index", "28%", 35⟩]⟩

/-- C5: every dengue result's qualitative level is the threshold chain
over its own total score: above 300 VERY HIGH, above 200 HIGH, above 100
MODERATE, otherwise LOW. -/
theorem c5_dengue_level_thresholds (p : Profile) (e : EnvData) (now : Date)
    (r : RiskResult) (h : calculate_dengue_risk p e now = Except.ok r) :
    r.level = if r.score > 300 then "VERY HIGH"
              else if r.score > 200 then "HIGH"
              else if r.score > 100 then "MODERATE"
              else "LOW" := by
  unfold calculate_dengue_risk at h
  cases hage : get_age p.core.dob now with
  | error err => rw [hage] at h; cases h
  | ok age =>
    rw [hage] at h
    simp only [Except.ok.injEq] at h
    subst h
    rfl

/-- C5 witness: the empty profile against the Lucknow snapshot lands in
the MODERATE band of the threshold chain. -/
theorem c5_dengue_level_thresholds_witness :
    dengue_example_result.level = "MODERATE" ∧
    calculate_dengue_risk empty_profile (get_dynamic_environmental_data "Lucknow")
      ⟨2025, 9, 13⟩ = Except.ok dengue_example_result := by
  have h := c5_dengue_level_thresholds empty_profile
    (get_dynamic_environmental_data "Lucknow") ⟨2025, 9, 13⟩
    dengue_example_result (by decide)
  exact ⟨by rw [h]; decide, by decide⟩

/-- C8: the predict handler answers 400 when the request's user
identifier is missing (or falsy), 404 when the store has no profile under
the normalized key, and 500 carrying the underlying error message on any
other internal failure — a misconfigured store client or an exception
thrown while scoring. -/
theorem c8_predict_status_codes (uname : Option String)
    (client : Except String Client) (now : Date) :
    (uname = none →
      get_prediction uname client now = .failure 400 "User name is required.") ∧
    (uname = some "" →
      get_prediction uname client now = .failure 400 "User name is required.") ∧
    (∀ name db, uname = some name → name ≠ "" → client = Except.ok db →
      db (normalize_user_key name) = none →
      get_prediction uname client now = .failure 404 "Profile not found.") ∧
    (∀ name msg, uname = some name → name ≠ "" → client = Except.error msg →
      get_prediction uname client now = .failure 500 msg) ∧
    (∀ name db profile msg, uname = some name → name ≠ "" →
      client = Except.ok db → db (normalize_user_key name) = some profile →
      analyze_risk profile now = Except.error msg →
      get_prediction uname client now = .failure 500 msg) := by
  refine ⟨fun h => ?_, fun h => ?_,
          fun name db h hn hc hdb => ?_,
          fun name msg h hn hc => ?_,
          fun name db profile msg h hn hc hdb ha => ?_⟩ <;>
    subst h <;> simp [get_prediction, *]

/-- C8 witness: the three status codes at concrete requests — missing
name, empty store, misconfigured client. -/
theorem c8_predict_status_codes_witness :
    get_prediction none (Except.error "Firestore credentials not set") ⟨2025, 9, 13⟩ =
      .failure 400 "User name is required." ∧
    get_prediction (some "Asha Devi") (Except.ok fun _ => none) ⟨2025, 9, 13⟩ =
      .failure 404 "Profile not found." ∧
    get_prediction (some "Asha Devi") (Except.error "Firestore credentials not set")
      ⟨2025, 9, 13⟩ = .failure 500 "Firestore credentials not set" :=
  ⟨(c8_predict_status_codes none (Except.error "Firestore credentials not set")
      ⟨2025, 9, 13⟩).1 rfl,
   (c8_predict_status_codes (some "Asha Devi") (Except.ok fun _ => none)
      ⟨2025, 9, 13⟩).2.2.1 "Asha Devi" (fun _ => none) rfl (by decide) rfl rfl,
   (c8_predict_status_codes (some "Asha Devi")
      (Except.error "Firestore credentials not set") ⟨2025, 9, 13⟩).2.2.2.1
      "Asha Devi" "Firestore credentials not set" rfl (by decide) rfl⟩

/-- C9 counterexample: the same profile analyzed at wall-clock years 2025
and 2051 yields different results (the dengue age bracket moves from
16-40 to >60), refuting "identical results regardless of when they are
executed". -/
theorem c9_counterexample :
    analyze_risk c9_profile ⟨2025, 9, 13⟩ ≠ analyze_risk c9_profile ⟨2051, 9, 13⟩ := by
  decide

/-- C9 (amended): the snapshot's timestamp is the fixed simulated moment
September 13 2025 17:18 for every district, and two runs of the analysis
on the same profile give identical results whenever they are executed in
the same calendar year — execution time reaches the scores only through
`datetime.now().year` inside the age computation. -/
theorem c9_fixed_snapshot_same_year_determinism :
    (∀ district : String,
      (get_dynamic_environmental_data district).timestamp = "2025-09-13T17:18:00") ∧
    (∀ (p : Profile) (t₀ t₁ : Date), t₀.year = t₁.year →
      analyze_risk p t₀ = analyze_risk p t₁) := by
  constructor
  · exact fun district => (env_data_stable_fields district).2.2.2.2
  · intro p t₀ t₁ h
    have hage := get_age_eq_of_year p.core.dob t₀ t₁ h
    unfold analyze_risk calculate_dengue_risk calculate_respiratory_risk
    rw [hage]

/-- C9 witness: two runs in the same year (different months) coincide. -/
theorem c9_fixed_snapshot_same_year_determinism_witness :
    analyze_risk c9_profile ⟨2025, 9, 13⟩ = analyze_risk c9_profile ⟨2025, 1, 1⟩ :=
  c9_fixed_snapshot_same_year_determinism.2 c9_profile ⟨2025, 9, 13⟩ ⟨2025, 1, 1⟩ rfl

/-- The dengue age weight table only produces non-negative weights. -/
theorem dengue_age_weight_nonneg (g : String) : 0 ≤ dengue_age_weight g := by
  unfold dengue_age_weight; split_ifs <;> norm_num

/-- The dengue age score table only produces non-negative scores. -/
theorem dengue_age_score_nonneg (g : String) : 0 ≤ dengue_age_score g := by
  unfold dengue_age_score; split_ifs <;> norm_num

/-- The respiratory AQI sub-score is non-negative for every AQI. -/
theorem respiratory_aqi_score_nonneg (aqi : Int) : 0 ≤ respiratory_aqi_score aqi := by
  unfold respiratory_aqi_score; split_ifs <;> norm_num

/-- The respiratory age weight table only produces non-negative weights. -/
theorem respiratory_age_weight_nonneg (g : String) : 0 ≤ respiratory_age_weight g := by
  unfold respiratory_age_weight; split_ifs <;> norm_num

/-- The respiratory age score table only produces non-negative scores. -/
theorem respiratory_age_score_nonneg (g : String) : 0 ≤ respiratory_age_score g := by
  unfold respiratory_age_score; split_ifs <;> norm_num

/-- C6: with everything else fixed, the dengue total score is monotone
non-decreasing in the snapshot's local vector index, and monotone
non-decreasing in its days-since-last-rain (hence in particular within
the capped range of the latter). -/
theorem c6_dengue_score_monotone (p : Profile) (e : EnvData) (now : Date)
    (v₀ v₁ : Int) (r₀ r₁ : RiskResult) (hv : v₀ ≤ v₁) :
    (calculate_dengue_risk p { e with local_vector_index := v₀ } now = Except.ok r₀ →
     calculate_dengue_risk p { e with local_vector_index := v₁ } now = Except.ok r₁ →
     r₀.score ≤ r₁.score) ∧
    (calculate_dengue_risk p { e with days_since_last_rain := v₀ } now = Except.ok r₀ →
     calculate_dengue_risk p { e with days_since_last_rain := v₁ } now = Except.ok r₁ →
     r₀.score ≤ r₁.score) := by
  cases hage : get_age p.core.dob now with
  | error err =>
    constructor <;> intro h₀ h₁ <;>
      (unfold calculate_dengue_risk at h₀; rw [hage] at h₀; cases h₀)
  | ok age =>
    constructor <;> intro h₀ h₁
    · obtain ⟨hs₀, -⟩ := dengue_ok_elim p _ now age hage r₀ h₀
      obtain ⟨hs₁, -⟩ := dengue_ok_elim p _ now age hage r₁ h₁
      rw [hs₀, hs₁]
      simp only [dengue_score_card, List.map_append, List.map_cons, List.map_nil,
        List.sum_append, List.sum_cons, List.sum_nil]
      have hq : (v₀ : ℚ) ≤ (v₁ : ℚ) := by exact_mod_cast hv
      linarith
    · obtain ⟨hs₀, -⟩ := dengue_ok_elim p _ now age hage r₀ h₀
      obtain ⟨hs₁, -⟩ := dengue_ok_elim p _ now age hage r₁ h₁
      rw [hs₀, hs₁]
      simp only [dengue_score_card, List.map_append, List.map_cons, List.map_nil,
        List.sum_append, List.sum_cons, List.sum_nil]
      have hmin : (min 10 (v₀ * 2) : Int) ≤ (min 10 (v₁ * 2) : Int) :=
        min_le_min (le_refl 10) (by omega)
      have hq : ((min 10 (v₀ * 2) : Int) : ℚ) ≤ ((min 10 (v₁ * 2) : Int) : ℚ) := by
        exact_mod_cast hmin
      linarith

/-- The dengue result for the empty profile when the vector index is
lowered to 20: the vector contribution drops to 25 and the total to 159. -/
def dengue_example_result_v20 : RiskResult :=
  ⟨"Dengue Fever", 159, "MODERATE",
   [⟨"Age Group", "16-40", 10⟩, ⟨"Location", "Rural", 20⟩,
    ⟨"Weeks Since Monsoon Peak", "4", 40⟩, ⟨"Days Since Rain", "4", 40⟩,
    ⟨"Time of Day", "17:00", 24⟩, ⟨"Vector Index", "20%", 25⟩]⟩

/-- C6 witness: raising the vector index from 20 to 28 does not lower the
total (159 ≤ 169). -/
theorem c6_dengue_score_monotone_witness :
    dengue_example_result_v20.score ≤ dengue_example_result.score :=
  (c6_dengue_score_monotone empty_profile base_env_data ⟨2025, 9, 13⟩ 20 28
    dengue_example_result_v20 dengue_example_result (by decide)).1
    (by decide) (by decide)

/-- C7: adding "Diabetes" to the conditions of a profile that lacks it,
all other fields equal, raises the dengue total score by at least 40. -/
theorem c7_dengue_diabetes_bonus (p : Profile) (e : EnvData) (now : Date)
    (r₀ r₁ : RiskResult) (hno : "Diabetes" ∉ p.lifestyle.conditions)
    (h₀ : calculate_dengue_risk p e now = Except.ok r₀)
    (h₁ : calculate_dengue_risk
      { p with lifestyle := { p.lifestyle with
          conditions := "Diabetes" :: p.lifestyle.conditions } } e now = Except.ok r₁) :
    r₀.score + 40 ≤ r₁.score := by
  cases hage : get_age p.core.dob now with
  | error err => unfold calculate_dengue_risk at h₀; rw [hage] at h₀; cases h₀
  | ok age =>
    obtain ⟨hs₀, -⟩ := dengue_ok_elim p e now age hage r₀ h₀
    obtain ⟨hs₁, -⟩ := dengue_ok_elim
      { p with lifestyle := { p.lifestyle with
          conditions := "Diabetes" :: p.lifestyle.conditions } }
      e now age hage r₁ h₁
    rw [hs₀, hs₁]
    simp only [dengue_score_card, List.map_append, List.map_cons, List.map_nil,
      List.sum_append, List.sum_cons, List.sum_nil, List.mem_cons, true_or,
      if_true, if_pos]
    simp [hno]

/-- The dengue result for the profile whose only datum is a Diabetes
condition: the co-morbidity entry adds 40 and lifts the level to HIGH. -/
def dengue_example_result_diabetes : RiskResult :=
  ⟨"Dengue Fever", 209, "HIGH",
   [⟨"Age Group", "16-40", 10⟩, ⟨"Location", "Rural", 20⟩,
    ⟨"Weeks Since Monsoon Peak", "4", 40⟩, ⟨"Days Since Rain", "4", 40⟩,
    ⟨"Time of Day", "17:00", 24⟩, ⟨"Vector Index", "28%", 35⟩,
    ⟨"Co-morbidity", "Diabetes", 40⟩]⟩

/-- C7 witness: the empty profile gains exactly the 40-point co-morbidity
entry when Diabetes is added (169 + 40 ≤ 209). -/
theorem c7_dengue_diabetes_bonus_witness :
    dengue_example_result.score + 40 ≤ dengue_example_result_diabetes.score :=
  c7_dengue_diabetes_bonus empty_profile (get_dynamic_environmental_data "Lucknow")
    ⟨2025, 9, 13⟩ dengue_example_result dengue_example_result_diabetes
    (by decide) (by decide) (by decide)

/-- Every entry of a dengue score-card against a simulator snapshot has a
non-negative contribution. -/
theorem dengue_score_card_entries_nonneg (p : Profile) (district : String)
    (age : Int) (x : ScoreItem)
    (hx : x ∈ dengue_score_card p (get_dynamic_environmental_data district) age) :
    0 ≤ x.score := by
  obtain ⟨hw, hd, hh, hv, -⟩ := env_data_stable_fields district
  simp only [dengue_score_card, List.mem_append, List.mem_cons,
    List.not_mem_nil, or_false] at hx
  rcases hx with h | h
  · rcases h with h | h | h | h | h | h
    · subst h
      exact mul_nonneg (dengue_age_weight_nonneg _) (dengue_age_score_nonneg _)
    · subst h; dsimp only; split_ifs <;> norm_num
    · subst h; dsimp only; rw [hw]; decide
    · subst h; dsimp only; rw [hd]; decide
    · subst h; dsimp only; rw [hh]; decide
    · subst h; dsimp only; rw [hv]; decide
  · split at h
    · simp only [List.mem_cons, List.not_mem_nil, or_false] at h
      subst h; decide
    · simp at h

/-- Every entry of a respiratory score-card against a simulator snapshot
has a non-negative contribution. -/
theorem respiratory_score_card_entries_nonneg (p : Profile) (district : String)
    (age : Int) (x : ScoreItem)
    (hx : x ∈ respiratory_score_card p (get_dynamic_environmental_data district) age) :
    0 ≤ x.score := by
  simp only [respiratory_score_card, List.mem_append, List.mem_cons,
    List.not_mem_nil, or_false] at hx
  rcases hx with (h | h) | h
  · rcases h with h | h
    · subst h
      dsimp only
      exact mul_nonneg (by norm_num) (respiratory_aqi_score_nonneg _)
    · subst h
      exact mul_nonneg (respiratory_age_weight_nonneg _) (respiratory_age_score_nonneg _)
  · split at h
    · simp only [List.mem_cons, List.not_mem_nil, or_false] at h
      subst h; decide
    · simp at h
  · split at h
    · split at h
      · simp only [List.mem_cons, List.not_mem_nil, or_false] at h
        subst h; norm_num
      · simp at h
    · simp at h

/-- C10: against any simulator snapshot, each calculator's returned score
is non-negative and equals exactly the sum of the contributions in its
details score-card — the score-card is the complete account of the total. -/
theorem c10_score_equals_card_sum (p : Profile) (district : String) (now : Date)
    (r₀ r₁ : RiskResult)
    (h₀ : calculate_dengue_risk p (get_dynamic_environmental_data district) now =
      Except.ok r₀)
    (h₁ : calculate_respiratory_risk p (get_dynamic_environmental_data district) now =
      Except.ok r₁) :
    (r₀.score = (r₀.details.map ScoreItem.score).sum ∧ 0 ≤ r₀.score) ∧
    (r₁.score = (r₁.details.map ScoreItem.score).sum ∧ 0 ≤ r₁.score) := by
  cases hage : get_age p.core.dob now with
  | error err => unfold calculate_dengue_risk at h₀; rw [hage] at h₀; cases h₀
  | ok age =>
    obtain ⟨hs₀, hd₀⟩ := dengue_ok_elim p _ now age hage r₀ h₀
    obtain ⟨hs₁, hd₁⟩ := respiratory_ok_elim p _ now age hage r₁ h₁
    refine ⟨⟨by rw [hs₀, hd₀], ?_⟩, ⟨by rw [hs₁, hd₁], ?_⟩⟩
    · rw [hs₀]
      refine List.sum_nonneg ?_
      intro q hq
      simp only [List.mem_map] at hq
      obtain ⟨item, hitem, rfl⟩ := hq
      exact dengue_score_card_entries_nonneg p district age item hitem
    · rw [hs₁]
      refine List.sum_nonneg ?_
      intro q hq
      simp only [List.mem_map] at hq
      obtain ⟨item, hitem, rfl⟩ := hq
      exact respiratory_score_card_entries_nonneg p district age item hitem

/-- The respiratory result for the empty profile against the Lucknow
snapshot: AQI 110 contributes 30, the default age bracket 8. -/
def respiratory_example_result : RiskResult :=
  ⟨"Respiratory Illness", 38, "LOW",
   [⟨"AQI", "110", 30⟩, ⟨"Age Group", "16-40", 8⟩]⟩

/-- C10 witness: both calculators on the empty profile against the
Lucknow snapshot: 169 = 10+20+40+40+24+35 and 38 = 30+8, both ≥ 0. -/
theorem c10_score_equals_card_sum_witness :
    (dengue_example_result.score =
      (dengue_example_result.details.map ScoreItem.score).sum ∧
      0 ≤ dengue_example_result.score) ∧
    (respiratory_example_result.score =
      (respiratory_example_result.details.map ScoreItem.score).sum ∧
      0 ≤ respiratory_example_result.score) :=
  c10_score_equals_card_sum empty_profile "Lucknow" ⟨2025, 9, 13⟩
    dengue_example_result respiratory_example_result (by decide) (by decide)

/-- C1 counterexample: running the respiratory calculator on the claimed
profile against the Ghaziabad snapshot (wall clock at the simulated
moment, September 13 2025) classifies MODERATE, not HIGH: the AQI 150
contributes 5×6 = 30 (not 5×8), so the total is 30 + 8 + 80 = 118 ≤ 150. -/
theorem c1_counterexample :
    (calculate_respiratory_risk c1_profile (get_dynamic_environmental_data "Ghaziabad")
      ⟨2025, 9, 13⟩).toOption.map RiskResult.level ≠ some "HIGH" ∧
    (calculate_respiratory_risk c1_profile (get_dynamic_environmental_data "Ghaziabad")
      ⟨2025, 9, 13⟩).toOption.map RiskResult.level = some "MODERATE" := by
  exact ⟨by decide, by decide⟩

/-- A successful respiratory computation, spelled out: when `get_age`
returns, the calculator returns the record built from the score-card. -/
theorem respiratory_ok_intro (p : Profile) (e : EnvData) (now : Date) (age : Int)
    (hage : get_age p.core.dob now = Except.ok age) :
    calculate_respiratory_risk p e now =
      Except.ok ⟨"Respiratory Illness",
        ((respiratory_score_card p e age).map ScoreItem.score).sum,
        (if ((respiratory_score_card p e age).map ScoreItem.score).sum > 250
         then "VERY HIGH"
         else if ((respiratory_score_card p e age).map ScoreItem.score).sum > 150
         then "HIGH"
         else if ((respiratory_score_card p e age).map ScoreItem.score).sum > 75
         then "MODERATE" else "LOW"),
        respiratory_score_card p e age⟩ := by
  unfold calculate_respiratory_risk
  rw [hage]

/-- C1 (amended): for the profile `{dob: 1990-01-01, district: Ghaziabad,
conditions: [Asthma/COPD]}` against the Ghaziabad snapshot, the
respiratory risk is the MODERATE tier with total 118 (AQI 150 → 5×6 = 30,
default age bracket → 2×4 = 8, Asthma/COPD → 80), for any execution year
through 2050 (while the wall-clock age stays in a default-weight
bracket). -/
theorem c1_respiratory_moderate (now : Date)
    (h₀ : 1996 ≤ now.year) (h₁ : now.year ≤ 2050) :
    (calculate_respiratory_risk c1_profile (get_dynamic_environmental_data "Ghaziabad")
      now).toOption.map RiskResult.level = some "MODERATE" ∧
    (calculate_respiratory_risk c1_profile (get_dynamic_environmental_data "Ghaziabad")
      now).toOption.map RiskResult.score = some 118 := by
  have hg : get_age_group (now.year - 1990) = "6-15" ∨
      get_age_group (now.year - 1990) = "16-40" ∨
      get_age_group (now.year - 1990) = "41-60" := by
    unfold get_age_group
    split_ifs with hc₁ hc₂ hc₃ hc₄
    · exact absurd hc₁ (by omega)
    · exact Or.inl rfl
    · exact Or.inr (Or.inl rfl)
    · exact Or.inr (Or.inr rfl)
    · exact absurd (by omega : now.year - 1990 ≤ 60) hc₄
  have hcard : respiratory_score_card c1_profile
      (get_dynamic_environmental_data "Ghaziabad") (now.year - 1990) =
      [⟨"AQI", "150", 30⟩,
       ⟨"Age Group", get_age_group (now.year - 1990), 8⟩,
       ⟨"Co-morbidity", "Asthma/COPD", 80⟩] := by
    rcases hg with hg | hg | hg <;> (simp only [respiratory_score_card]; rw [hg]; decide)
  rw [respiratory_ok_intro c1_profile (get_dynamic_environmental_data "Ghaziabad")
      now (now.year - 1990) rfl, hcard]
  norm_num [Except.toOption, List.map_cons, List.map_nil, List.sum_cons, List.sum_nil]

/-- C1 witness: the amended claim at a concrete execution date in 2026. -/
theorem c1_respiratory_moderate_witness :
    (calculate_respiratory_risk c1_profile (get_dynamic_environmental_data "Ghaziabad")
      ⟨2026, 2, 7⟩).toOption.map RiskResult.level = some "MODERATE" ∧
    (calculate_respiratory_risk c1_profile (get_dynamic_environmental_data "Ghaziabad")
      ⟨2026, 2, 7⟩).toOption.map RiskResult.score = some 118 :=
  c1_respiratory_moderate ⟨2026, 2, 7⟩ (by decide) (by decide)
